import Mathlib

/-!
Verification development for the Gemma-style attention core:
`core_burn/src/kv_cache.rs`, `core_burn/src/rope.rs` and
`core_burn/src/architectures/gemma/attention.rs`.

Tensors are modelled shallowly as a shape (four natural-number axis sizes)
together with a total data function; entries outside the shape are
irrelevant and every theorem quantifies only over in-shape indices or
states explicit shape equalities.  Floating-point scalars are modelled as
an abstract field `α` equipped with the transcendental operations the code
uses (`ScalarOps`); theorems about the actual real-valued formulas
instantiate `α := ℝ`.  Fallible Rust code (functions returning `Result`)
is modelled with `Except`; a Rust panic (such as integer division by zero)
is modelled with a dedicated `Outcome.panicked` constructor.  Mutex locks
always succeed in this sequential embedding, so the `LockFailed` error
variant is unreachable here, exactly as in single-threaded executions of
the source.
-/

/-- The transcendental scalar operations used by the source (`f64::cos`,
`sin`, `exp`, `ln`, `sqrt`), abstracted so that the embedding stays
computable; the real-number instantiation is `realOps` below. -/
structure ScalarOps (α : Type) where
  cos : α → α
  sin : α → α
  exp : α → α
  log : α → α
  sqrt : α → α

/-- Rank-1 tensor: a length and a total data function (`Tensor<B, 1>`). -/
structure Tensor1 (α : Type) where
  len : Nat
  data : Nat → α

/-- Rank-2 tensor (`Tensor<B, 2>`), used for the RoPE cos/sin tables. -/
structure Tensor2 (α : Type) where
  rows : Nat
  cols : Nat
  data : Nat → Nat → α

/-- Rank-3 tensor (`Tensor<B, 3>`): `[batch, seq, features]`. -/
structure Tensor3 (α : Type) where
  batch : Nat
  seq : Nat
  dim : Nat
  data : Nat → Nat → Nat → α

/-- Rank-4 tensor (`Tensor<B, 4>`): `[batch, heads, seq, head_dim]`. -/
structure Tensor4 (α : Type) where
  batch : Nat
  heads : Nat
  seq : Nat
  dim : Nat
  data : Nat → Nat → Nat → Nat → α

/-- The `dims()` accessor of a rank-4 Burn tensor. -/
def Tensor4.dims (t : Tensor4 α) : List Nat :=
  [t.batch, t.heads, t.seq, t.dim]

/-- `usize::MAX`, used by `kv_cache.rs` as a placeholder for the exempt
sequence-length axis in the `IncompatibleShape` payload. -/
def usizeMax : Nat := 2 ^ 64 - 1

/-- Concatenation of two rank-4 tensors along axis 2 (the sequence axis),
assuming compatible shapes: `Tensor::cat(vec![x, y], 2)`. -/
def Tensor4.catSeq (x y : Tensor4 α) : Tensor4 α :=
  { batch := x.batch, heads := x.heads, seq := x.seq + y.seq, dim := x.dim,
    data := fun b h s d => if s < x.seq then x.data b h s d else y.data b h (s - x.seq) d }

/-- Fallible concatenation along axis 2, as the source uses it: Burn's
`cat` fails when any axis other than the concatenation axis disagrees. -/
def Tensor4.catSeqE (x y : Tensor4 α) : Except String (Tensor4 α) :=
  if x.batch = y.batch ∧ x.heads = y.heads ∧ x.dim = y.dim then
    .ok (x.catSeq y)
  else
    .error ("cat along axis 2: shapes disagree on a non-concatenation axis")

/-- Concatenation of two rank-4 tensors along axis 1 (the head axis),
assuming compatible shapes. -/
def Tensor4.catHeads (x y : Tensor4 α) : Tensor4 α :=
  { batch := x.batch, heads := x.heads + y.heads, seq := x.seq, dim := x.dim,
    data := fun b h s d => if h < x.heads then x.data b h s d else y.data b (h - x.heads) s d }

/-- Concatenation of two rank-4 tensors along axis 3 (the last axis),
assuming compatible shapes: `Tensor::cat(vec![x, y], 3)`. -/
def Tensor4.catLast (x y : Tensor4 α) : Tensor4 α :=
  { batch := x.batch, heads := x.heads, seq := x.seq, dim := x.dim + y.dim,
    data := fun b h s d => if d < x.dim then x.data b h s d else y.data b h s (d - x.dim) }

/-- Fallible concatenation along axis 3 (`rope.rs` maps its error into
`BurnCoreError::BurnTensor`). -/
def Tensor4.catLastE (x y : Tensor4 α) : Except String (Tensor4 α) :=
  if x.batch = y.batch ∧ x.heads = y.heads ∧ x.seq = y.seq then
    .ok (x.catLast y)
  else
    .error ("cat along axis 3: shapes disagree on a non-concatenation axis")

/-- Errors of `kv_cache.rs` (`KVCacheError`). -/
inductive KVCacheError where
  | positionOutOfBounds (position : Nat) (max_len : Nat)
  | lockFailed (msg : String)
  | incompatibleShape (expected_dims : List Nat) (actual_dims : List Nat)
  | burnTensor (msg : String)
deriving DecidableEq, Repr

/-- The subset of `BurnCoreError` (`core_burn/src/error.rs`) reachable from
the attention / RoPE / cache code under `src/`. -/
inductive BurnCoreError where
  | invalidConfig (msg : String)
  | burnTensor (msg : String)
  | incompatibleShape (msg : String)
  | kvCache (e : KVCacheError)
  | generic (msg : String)
deriving DecidableEq, Repr

/-- Burn's `MhaCache`: a pair of rank-4 key/value tensors, re-exported and
stored by `kv_cache.rs` and taken directly by `GemmaAttention::forward`. -/
structure MhaCache (α : Type) where
  key : Tensor4 α
  value : Tensor4 α

/-- The `KVCache` struct of `kv_cache.rs`.  The `Arc<Mutex<...>>` wrappers
are dropped: this sequential embedding owns the state directly and lock
acquisition always succeeds. -/
structure KVCache (α : Type) where
  cache_data : MhaCache α
  max_len : Nat
  current_len : Nat

/-- `KVCache::new(batch_size, num_heads, max_len, head_dim, device)`:
zero-length key/value tensors with the given batch/heads/head_dim.  The
`device` argument only places tensors and is dropped. -/
def KVCache.new [Zero α] (batch_size num_heads max_len head_dim : Nat) : KVCache α :=
  { cache_data :=
      { key := { batch := batch_size, heads := num_heads, seq := 0, dim := head_dim,
                 data := fun _ _ _ _ => 0 },
        value := { batch := batch_size, heads := num_heads, seq := 0, dim := head_dim,
                   data := fun _ _ _ _ => 0 } },
    max_len := max_len,
    current_len := 0 }

/-- `KVCache::update_and_get(new_key_states, new_value_states)`, returned
as `(state after the call, result)`.  The source acquires both locks
(infallible here), checks the capacity bound, checks shape compatibility
(batch/heads/head_dim of the current key against the new key and of the
new key against the new value; the sequence axis is exempt), concatenates
key then value along axis 2, and only then mutates `current_len` and the
stored tensors.  Every early-return error path leaves the state exactly as
it was. -/
def KVCache.update_and_get (self : KVCache α)
    (new_key_states new_value_states : Tensor4 α) :
    KVCache α × Except KVCacheError (Tensor4 α × Tensor4 α) :=
  let new_seq_len := new_key_states.seq
  if self.current_len + new_seq_len > self.max_len then
    (self, .error (.positionOutOfBounds (self.current_len + new_seq_len) self.max_len))
  else
    let ck := self.cache_data.key
    if ck.batch ≠ new_key_states.batch ∨ ck.heads ≠ new_key_states.heads
        ∨ ck.dim ≠ new_key_states.dim
        ∨ new_key_states.batch ≠ new_value_states.batch
        ∨ new_key_states.heads ≠ new_value_states.heads
        ∨ new_key_states.dim ≠ new_value_states.dim then
      (self, .error (.incompatibleShape [ck.batch, ck.heads, usizeMax, ck.dim]
        new_key_states.dims))
    else
      match self.cache_data.key.catSeqE new_key_states,
            self.cache_data.value.catSeqE new_value_states with
      | .ok updated_k, .ok updated_v =>
          ({ cache_data := { key := updated_k, value := updated_v },
             max_len := self.max_len,
             current_len := self.current_len + new_seq_len },
           .ok (updated_k, updated_v))
      | .error e, _ => (self, .error (.burnTensor e))
      | .ok _, .error e => (self, .error (.burnTensor e))

/-- `KVCache::get_current_values()`: snapshot read (lock always succeeds). -/
def KVCache.get_current_values (self : KVCache α) :
    Except KVCacheError (Tensor4 α × Tensor4 α) :=
  .ok (self.cache_data.key, self.cache_data.value)

/-- `KVCache::current_seq_length()` (lock always succeeds). -/
def KVCache.current_seq_length (self : KVCache α) : Except KVCacheError Nat :=
  .ok self.current_len

/-- `KVCache::max_sequence_length()`. -/
def KVCache.max_sequence_length (self : KVCache α) : Nat :=
  self.max_len

/-- `KVCache::reset(device)`: fresh zero-length tensors whose
batch/heads/head_dim are read off the stored key tensor; `current_len`
returns to `0`. -/
def KVCache.reset [Zero α] (self : KVCache α) : KVCache α :=
  let dims := self.cache_data.key
  { cache_data :=
      { key := { batch := dims.batch, heads := dims.heads, seq := 0, dim := dims.dim,
                 data := fun _ _ _ _ => 0 },
        value := { batch := dims.batch, heads := dims.heads, seq := 0, dim := dims.dim,
                   data := fun _ _ _ _ => 0 } },
    max_len := self.max_len,
    current_len := 0 }

/-- Well-formedness of a cache state: `current_len` is the sequence length
of both stored tensors and stays within `max_len`, and the value tensor
agrees with the key tensor on batch, head count and head_dim. -/
def KVCache.WellFormed (c : KVCache α) : Prop :=
  c.cache_data.key.seq = c.current_len ∧
  c.cache_data.value.seq = c.current_len ∧
  c.current_len ≤ c.max_len ∧
  c.cache_data.value.batch = c.cache_data.key.batch ∧
  c.cache_data.value.heads = c.cache_data.key.heads ∧
  c.cache_data.value.dim = c.cache_data.key.dim

/-- Iterated appends: the state after `n` calls of `update_and_get` with
the same new key/value tensors, keeping the state a failed call returns. -/
def KVCache.iterAppend (c : KVCache α) (nk nv : Tensor4 α) : Nat → KVCache α
  | 0 => c
  | n + 1 => ((c.iterAppend nk nv n).update_and_get nk nv).1

/-- Boolean success test for `Except`, used to state success/failure. -/
def exceptIsOk : Except ε β → Bool
  | .ok _ => true
  | .error _ => false

/-- A concrete all-zero rational tensor of the given shape, used to
exercise the embedding on concrete inputs. -/
def zt4 (b h s d : Nat) : Tensor4 ℚ :=
  ⟨b, h, s, d, fun _ _ _ _ => 0⟩

/-- Characterisation of a successful `update_and_get`: when the capacity
bound holds and all checked shape dimensions agree, the call concatenates
along the sequence axis, advances `current_len`, and returns the full
tensors. -/
theorem update_and_get_ok_char (c : KVCache α) (nk nv : Tensor4 α)
    (hb : c.current_len + nk.seq ≤ c.max_len)
    (h1 : c.cache_data.key.batch = nk.batch) (h2 : c.cache_data.key.heads = nk.heads)
    (h3 : c.cache_data.key.dim = nk.dim)
    (h4 : nk.batch = nv.batch) (h5 : nk.heads = nv.heads) (h6 : nk.dim = nv.dim)
    (h7 : c.cache_data.value.batch = nv.batch) (h8 : c.cache_data.value.heads = nv.heads)
    (h9 : c.cache_data.value.dim = nv.dim) :
    c.update_and_get nk nv =
      ({ cache_data := { key := c.cache_data.key.catSeq nk,
                         value := c.cache_data.value.catSeq nv },
         max_len := c.max_len,
         current_len := c.current_len + nk.seq },
       .ok (c.cache_data.key.catSeq nk, c.cache_data.value.catSeq nv)) := by
  have hA : ¬ (c.current_len + nk.seq > c.max_len) := by omega
  have hB : ¬ (c.cache_data.key.batch ≠ nk.batch ∨ c.cache_data.key.heads ≠ nk.heads
      ∨ c.cache_data.key.dim ≠ nk.dim
      ∨ nk.batch ≠ nv.batch ∨ nk.heads ≠ nv.heads ∨ nk.dim ≠ nv.dim) := by omega
  have hC : c.cache_data.key.catSeqE nk = .ok (c.cache_data.key.catSeq nk) := by
    simp [Tensor4.catSeqE, h1, h2, h3]
  have hD : c.cache_data.value.catSeqE nv = .ok (c.cache_data.value.catSeq nv) := by
    simp [Tensor4.catSeqE, h7, h8, h9]
  simp only [KVCache.update_and_get]
  rw [if_neg hA, if_neg hB, hC, hD]

/-- Shape of the cache state after `i` single-token appends into a fresh
cache of capacity `N`, for `i ≤ N`: `current_len = i`, both stored tensors
have sequence length `i` and the construction-time batch/heads/head_dim. -/
theorem iterAppend_char [Zero α] (b h d N : Nat) (nk nv : Tensor4 α)
    (hk1 : nk.batch = b) (hk2 : nk.heads = h) (hk3 : nk.seq = 1) (hk4 : nk.dim = d)
    (hv1 : nv.batch = b) (hv2 : nv.heads = h) (hv3 : nv.seq = 1) (hv4 : nv.dim = d) :
    ∀ i, i ≤ N →
      ((KVCache.new b h N d : KVCache α).iterAppend nk nv i).current_len = i ∧
      ((KVCache.new b h N d : KVCache α).iterAppend nk nv i).max_len = N ∧
      ((KVCache.new b h N d : KVCache α).iterAppend nk nv i).cache_data.key.batch = b ∧
      ((KVCache.new b h N d : KVCache α).iterAppend nk nv i).cache_data.key.heads = h ∧
      ((KVCache.new b h N d : KVCache α).iterAppend nk nv i).cache_data.key.seq = i ∧
      ((KVCache.new b h N d : KVCache α).iterAppend nk nv i).cache_data.key.dim = d ∧
      ((KVCache.new b h N d : KVCache α).iterAppend nk nv i).cache_data.value.batch = b ∧
      ((KVCache.new b h N d : KVCache α).iterAppend nk nv i).cache_data.value.heads = h ∧
      ((KVCache.new b h N d : KVCache α).iterAppend nk nv i).cache_data.value.seq = i ∧
      ((KVCache.new b h N d : KVCache α).iterAppend nk nv i).cache_data.value.dim = d := by
  intro i
  induction i with
  | zero =>
      intro _
      exact ⟨rfl, rfl, rfl, rfl, rfl, rfl, rfl, rfl, rfl, rfl⟩
  | succ n ih =>
      intro hle
      obtain ⟨e1, e2, e3, e4, e5, e6, e7, e8, e9, e10⟩ := ih (by omega)
      have hchar := update_and_get_ok_char
        ((KVCache.new b h N d : KVCache α).iterAppend nk nv n) nk nv
        (by omega) (by omega) (by omega) (by omega) (by omega) (by omega)
        (by omega) (by omega) (by omega) (by omega)
      simp only [KVCache.iterAppend, hchar, Tensor4.catSeq]
      refine ⟨by omega, by omega, by omega, by omega, by omega,
        by omega, by omega, by omega, by omega, by omega⟩

/-- C3 (amended): for shape-compatible new key/value tensors,
`update_and_get` succeeds exactly when `current_len + new_seq_len <=
max_len`; starting from an empty cache of capacity `N`, every one of the
first `N` single-token appends succeeds and the `(N+1)`-th append fails
with `PositionOutOfBounds` carrying position `N + 1` and maximum `N`. -/
theorem claim_C3_capacity [Zero α] (c : KVCache α) (nk nv : Tensor4 α)
    (h1 : c.cache_data.key.batch = nk.batch) (h2 : c.cache_data.key.heads = nk.heads)
    (h3 : c.cache_data.key.dim = nk.dim)
    (h4 : nk.batch = nv.batch) (h5 : nk.heads = nv.heads) (h6 : nk.dim = nv.dim)
    (h7 : c.cache_data.value.batch = nv.batch) (h8 : c.cache_data.value.heads = nv.heads)
    (h9 : c.cache_data.value.dim = nv.dim)
    (b hh d N i : Nat) (nk1 nv1 : Tensor4 α)
    (hk1 : nk1.batch = b) (hk2 : nk1.heads = hh) (hk3 : nk1.seq = 1) (hk4 : nk1.dim = d)
    (hv1 : nv1.batch = b) (hv2 : nv1.heads = hh) (hv3 : nv1.seq = 1) (hv4 : nv1.dim = d) :
    (exceptIsOk (c.update_and_get nk nv).2 = true ↔ c.current_len + nk.seq ≤ c.max_len)
    ∧ (i < N →
        exceptIsOk (((KVCache.new b hh N d : KVCache α).iterAppend nk1 nv1 i).update_and_get
          nk1 nv1).2 = true)
    ∧ (((KVCache.new b hh N d : KVCache α).iterAppend nk1 nv1 N).update_and_get nk1 nv1).2
        = .error (.positionOutOfBounds (N + 1) N) := by
  refine ⟨⟨?_, ?_⟩, ?_, ?_⟩
  · intro hok
    by_contra hnb
    push_neg at hnb
    rw [show c.update_and_get nk nv
        = (c, .error (.positionOutOfBounds (c.current_len + nk.seq) c.max_len)) by
      simp only [KVCache.update_and_get]
      rw [if_pos (by omega)]] at hok
    simp [exceptIsOk] at hok
  · intro hb
    rw [update_and_get_ok_char c nk nv hb h1 h2 h3 h4 h5 h6 h7 h8 h9]
    rfl
  · intro hiN
    obtain ⟨e1, e2, e3, e4, e5, e6, e7, e8, e9, e10⟩ :=
      iterAppend_char b hh d N nk1 nv1 hk1 hk2 hk3 hk4 hv1 hv2 hv3 hv4 i (by omega)
    rw [update_and_get_ok_char _ nk1 nv1 (by omega) (by omega) (by omega) (by omega)
      (by omega) (by omega) (by omega) (by omega) (by omega) (by omega)]
    rfl
  · obtain ⟨e1, e2, e3, e4, e5, e6, e7, e8, e9, e10⟩ :=
      iterAppend_char b hh d N nk1 nv1 hk1 hk2 hk3 hk4 hv1 hv2 hv3 hv4 N le_rfl
    simp only [KVCache.update_and_get]
    rw [if_pos (by omega)]
    simp only [e1, e2, hk3]

/-- C3 counterexample to the claim as frozen: a call whose capacity bound
holds (`current_len + new_seq_len = 1 <= 2 = max_len`) nevertheless fails,
because the new key batch size (2) differs from the cache's (1) — so
"succeeds exactly when the capacity bound holds" is false without a
shape-compatibility proviso. -/
theorem claim_C3_counterexample :
    ((KVCache.new 1 1 2 1 : KVCache ℚ).current_len + (zt4 2 1 1 1).seq
        ≤ (KVCache.new 1 1 2 1 : KVCache ℚ).max_len)
    ∧ exceptIsOk ((KVCache.new 1 1 2 1 : KVCache ℚ).update_and_get
        (zt4 2 1 1 1) (zt4 2 1 1 1)).2 = false :=
  ⟨by decide, rfl⟩

/-- C3 witness: the amended theorem applied to a fresh rational cache of
capacity 2 with matching single-token appends (i = 1 < N = 2). -/
theorem claim_C3_witness :
    ((KVCache.new 1 1 2 1 : KVCache ℚ).cache_data.key.batch = (zt4 1 1 1 1).batch
      ∧ (zt4 1 1 1 1).seq = 1 ∧ (1 : Nat) < 2)
    ∧ ((exceptIsOk ((KVCache.new 1 1 2 1 : KVCache ℚ).update_and_get
          (zt4 1 1 1 1) (zt4 1 1 1 1)).2 = true
        ↔ (KVCache.new 1 1 2 1 : KVCache ℚ).current_len + (zt4 1 1 1 1).seq
            ≤ (KVCache.new 1 1 2 1 : KVCache ℚ).max_len)
      ∧ ((1 : Nat) < 2 →
          exceptIsOk (((KVCache.new 1 1 2 1 : KVCache ℚ).iterAppend
            (zt4 1 1 1 1) (zt4 1 1 1 1) 1).update_and_get (zt4 1 1 1 1) (zt4 1 1 1 1)).2 = true)
      ∧ (((KVCache.new 1 1 2 1 : KVCache ℚ).iterAppend
            (zt4 1 1 1 1) (zt4 1 1 1 1) 2).update_and_get (zt4 1 1 1 1) (zt4 1 1 1 1)).2
          = .error (.positionOutOfBounds 3 2)) :=
  ⟨⟨rfl, rfl, by decide⟩,
    claim_C3_capacity (KVCache.new 1 1 2 1) (zt4 1 1 1 1) (zt4 1 1 1 1)
      rfl rfl rfl rfl rfl rfl rfl rfl rfl 1 1 1 2 1 (zt4 1 1 1 1) (zt4 1 1 1 1)
      rfl rfl rfl rfl rfl rfl rfl rfl⟩

/-- C8 (amended): provided the capacity check passes (`current_len +
new_seq_len <= max_len`), any disagreement of the new key or new value
with the cache's stored batch size, head count, or head_dim (sequence
length exempt) makes `update_and_get` fail with `IncompatibleShape`,
returned as a value (the embedding is a total function — no panic), and
the cache state is left unchanged. -/
theorem claim_C8_shape_error (c : KVCache α) (nk nv : Tensor4 α)
    (hbound : c.current_len + nk.seq ≤ c.max_len)
    (hmis : nk.batch ≠ c.cache_data.key.batch ∨ nk.heads ≠ c.cache_data.key.heads
      ∨ nk.dim ≠ c.cache_data.key.dim
      ∨ nv.batch ≠ c.cache_data.key.batch ∨ nv.heads ≠ c.cache_data.key.heads
      ∨ nv.dim ≠ c.cache_data.key.dim) :
    (c.update_and_get nk nv).2
      = .error (.incompatibleShape
          [c.cache_data.key.batch, c.cache_data.key.heads, usizeMax, c.cache_data.key.dim]
          nk.dims)
    ∧ (c.update_and_get nk nv).1 = c := by
  have hcond : c.cache_data.key.batch ≠ nk.batch ∨ c.cache_data.key.heads ≠ nk.heads
      ∨ c.cache_data.key.dim ≠ nk.dim
      ∨ nk.batch ≠ nv.batch ∨ nk.heads ≠ nv.heads ∨ nk.dim ≠ nv.dim := by omega
  constructor
  · simp only [KVCache.update_and_get]
    rw [if_neg (by omega), if_pos hcond]
  · simp only [KVCache.update_and_get]
    rw [if_neg (by omega), if_pos hcond]

/-- C8 counterexample to the claim as frozen: a new key whose batch size
(2) differs from the cache's (1) but whose sequence length also exceeds
the capacity is rejected with `PositionOutOfBounds`, not
`IncompatibleShape` — the capacity check runs first. -/
theorem claim_C8_counterexample :
    (zt4 2 1 2 1).batch ≠ (KVCache.new 1 1 1 1 : KVCache ℚ).cache_data.key.batch
    ∧ ((KVCache.new 1 1 1 1 : KVCache ℚ).update_and_get (zt4 2 1 2 1) (zt4 2 1 2 1)).2
        = .error (.positionOutOfBounds 2 1) :=
  ⟨by decide, rfl⟩

/-- C8 witness: the amended theorem applied to a fresh rational cache of
capacity 2 and a batch-mismatched single-token append. -/
theorem claim_C8_witness :
    ((KVCache.new 1 1 2 1 : KVCache ℚ).current_len + (zt4 2 1 1 1).seq
          ≤ (KVCache.new 1 1 2 1 : KVCache ℚ).max_len
      ∧ (zt4 2 1 1 1).batch ≠ (KVCache.new 1 1 2 1 : KVCache ℚ).cache_data.key.batch)
    ∧ (((KVCache.new 1 1 2 1 : KVCache ℚ).update_and_get (zt4 2 1 1 1) (zt4 2 1 1 1)).2
        = .error (.incompatibleShape [1, 1, usizeMax, 1] [2, 1, 1, 1])
      ∧ ((KVCache.new 1 1 2 1 : KVCache ℚ).update_and_get (zt4 2 1 1 1) (zt4 2 1 1 1)).1
          = (KVCache.new 1 1 2 1 : KVCache ℚ)) :=
  ⟨⟨by decide, by decide⟩,
    claim_C8_shape_error (KVCache.new 1 1 2 1) (zt4 2 1 1 1) (zt4 2 1 1 1)
      (by decide) (.inl (by decide))⟩

/-- C9: well-formedness (`current_len` equals the stored key sequence
length, never exceeds `max_len`, value tensor's batch/heads/head_dim agree
with the key's, and — given appends pass key and value of equal sequence
length — the value's sequence length equals `current_len` too) holds of
`new` and is preserved by `update_and_get` (whether it succeeds or
errors) and by `reset`; moreover the key and value batch/heads/head_dim
are never changed by either operation. -/
theorem claim_C9_invariants [Zero α] (c : KVCache α) (nk nv : Tensor4 α)
    (bb hhh m dd : Nat)
    (hw : c.WellFormed) (hseq : nk.seq = nv.seq) :
    (KVCache.new bb hhh m dd : KVCache α).WellFormed
    ∧ (c.update_and_get nk nv).1.WellFormed
    ∧ (c.update_and_get nk nv).1.cache_data.key.batch = c.cache_data.key.batch
    ∧ (c.update_and_get nk nv).1.cache_data.key.heads = c.cache_data.key.heads
    ∧ (c.update_and_get nk nv).1.cache_data.key.dim = c.cache_data.key.dim
    ∧ (c.update_and_get nk nv).1.cache_data.value.batch = c.cache_data.value.batch
    ∧ (c.update_and_get nk nv).1.cache_data.value.heads = c.cache_data.value.heads
    ∧ (c.update_and_get nk nv).1.cache_data.value.dim = c.cache_data.value.dim
    ∧ c.reset.WellFormed
    ∧ c.reset.cache_data.key.batch = c.cache_data.key.batch
    ∧ c.reset.cache_data.key.heads = c.cache_data.key.heads
    ∧ c.reset.cache_data.key.dim = c.cache_data.key.dim
    ∧ c.reset.cache_data.value.batch = c.cache_data.value.batch
    ∧ c.reset.cache_data.value.heads = c.cache_data.value.heads
    ∧ c.reset.cache_data.value.dim = c.cache_data.value.dim := by
  obtain ⟨w1, w2, w3, w4, w5, w6⟩ := hw
  have hupd : (c.update_and_get nk nv).1.WellFormed
      ∧ (c.update_and_get nk nv).1.cache_data.key.batch = c.cache_data.key.batch
      ∧ (c.update_and_get nk nv).1.cache_data.key.heads = c.cache_data.key.heads
      ∧ (c.update_and_get nk nv).1.cache_data.key.dim = c.cache_data.key.dim
      ∧ (c.update_and_get nk nv).1.cache_data.value.batch = c.cache_data.value.batch
      ∧ (c.update_and_get nk nv).1.cache_data.value.heads = c.cache_data.value.heads
      ∧ (c.update_and_get nk nv).1.cache_data.value.dim = c.cache_data.value.dim := by
    simp only [KVCache.update_and_get]
    split
    · exact ⟨⟨w1, w2, w3, w4, w5, w6⟩, rfl, rfl, rfl, rfl, rfl, rfl⟩
    · split
      · exact ⟨⟨w1, w2, w3, w4, w5, w6⟩, rfl, rfl, rfl, rfl, rfl, rfl⟩
      · rename_i hble hshape
        split
        · rename_i uk uv hk hv
          rw [Tensor4.catSeqE] at hk hv
          rw [if_pos (by omega)] at hk
          rw [if_pos (by omega)] at hv
          injection hk with hk
          injection hv with hv
          subst hk
          subst hv
          refine ⟨⟨?_, ?_, ?_, ?_, ?_, ?_⟩, ?_, ?_, ?_, ?_, ?_, ?_⟩ <;>
            simp [Tensor4.catSeq] <;> omega
        · exact ⟨⟨w1, w2, w3, w4, w5, w6⟩, rfl, rfl, rfl, rfl, rfl, rfl⟩
        · exact ⟨⟨w1, w2, w3, w4, w5, w6⟩, rfl, rfl, rfl, rfl, rfl, rfl⟩
  refine ⟨⟨rfl, rfl, Nat.zero_le _, rfl, rfl, rfl⟩, hupd.1, hupd.2.1, hupd.2.2.1, hupd.2.2.2.1,
    hupd.2.2.2.2.1, hupd.2.2.2.2.2.1, hupd.2.2.2.2.2.2,
    ⟨rfl, rfl, Nat.zero_le _, rfl, rfl, rfl⟩, rfl, rfl, rfl, by simp [KVCache.reset, w4],
    by simp [KVCache.reset, w5], by simp [KVCache.reset, w6]⟩

/-- C9 witness: the invariant theorem applied to a fresh rational cache of
capacity 2 with a matching single-token append. -/
theorem claim_C9_witness :
    ((KVCache.new 1 1 2 1 : KVCache ℚ).WellFormed ∧ (zt4 1 1 1 1).seq = (zt4 1 1 1 1).seq)
    ∧ (((KVCache.new 1 1 2 1 : KVCache ℚ).update_and_get (zt4 1 1 1 1) (zt4 1 1 1 1)).1.WellFormed
      ∧ ((KVCache.new 1 1 2 1 : KVCache ℚ).reset).WellFormed
      ∧ (KVCache.new 3 4 5 6 : KVCache ℚ).WellFormed) :=
  ⟨⟨⟨rfl, rfl, Nat.zero_le _, rfl, rfl, rfl⟩, rfl⟩,
    (claim_C9_invariants (KVCache.new 1 1 2 1) (zt4 1 1 1 1) (zt4 1 1 1 1) 3 4 5 6
        ⟨rfl, rfl, Nat.zero_le _, rfl, rfl, rfl⟩ rfl).2.1,
    (claim_C9_invariants (KVCache.new 1 1 2 1) (zt4 1 1 1 1) (zt4 1 1 1 1) 3 4 5 6
        ⟨rfl, rfl, Nat.zero_le _, rfl, rfl, rfl⟩ rfl).2.2.2.2.2.2.2.2.1,
    (claim_C9_invariants (KVCache.new 1 1 2 1) (zt4 1 1 1 1) (zt4 1 1 1 1) 3 4 5 6
        ⟨rfl, rfl, Nat.zero_le _, rfl, rfl, rfl⟩ rfl).1⟩

/-- C10: `update_and_get` is atomic on failure — every erroring call
leaves the cache state (key tensor, value tensor, `current_len`) exactly
as it was: all validation and both concatenations complete before any
field is assigned. -/
theorem claim_C10_error_atomicity (c : KVCache α) (nk nv : Tensor4 α)
    (hfail : exceptIsOk (c.update_and_get nk nv).2 = false) :
    (c.update_and_get nk nv).1 = c := by
  revert hfail
  simp only [KVCache.update_and_get]
  split
  · intro _; rfl
  · split
    · intro _; rfl
    · split
      · intro hcontra
        simp [exceptIsOk] at hcontra
      · intro _; rfl
      · intro _; rfl

/-- C10 witness: a concrete failing append (sequence length 2 into a
capacity-1 cache) leaves the state equal to the fresh cache. -/
theorem claim_C10_witness :
    exceptIsOk ((KVCache.new 1 1 1 1 : KVCache ℚ).update_and_get
        (zt4 1 1 2 1) (zt4 1 1 2 1)).2 = false
    ∧ ((KVCache.new 1 1 1 1 : KVCache ℚ).update_and_get (zt4 1 1 2 1) (zt4 1 1 2 1)).1
        = (KVCache.new 1 1 1 1 : KVCache ℚ) :=
  ⟨rfl, claim_C10_error_atomicity (KVCache.new 1 1 1 1) (zt4 1 1 2 1) (zt4 1 1 2 1) rfl⟩

/-- `Tensor::arange(0..n, device)`: integer values `0, 1, ..., n - 1`. -/
def arange (n : Nat) : Tensor1 Nat :=
  ⟨n, fun i => i⟩

/-- `Tensor::arange_step(0..n, step, device)`: `0, step, 2*step, ...`
below `n` (for the source's call, `0, 2, ..., dim - 2`). -/
def arange_step (n step : Nat) : Tensor1 Nat :=
  ⟨(n + step - 1) / step, fun i => step * i⟩

/-- `.float()`: cast an integer tensor elementwise into the scalar type. -/
def Tensor1.float [NatCast α] (t : Tensor1 Nat) : Tensor1 α :=
  ⟨t.len, fun i => (t.data i : α)⟩

/-- `.div_scalar(c)` on a rank-1 tensor. -/
def Tensor1.div_scalar [Div α] (t : Tensor1 α) (c : α) : Tensor1 α :=
  ⟨t.len, fun i => t.data i / c⟩

/-- `.mul_scalar(c)` on a rank-1 tensor. -/
def Tensor1.mul_scalar [Mul α] (t : Tensor1 α) (c : α) : Tensor1 α :=
  ⟨t.len, fun i => t.data i * c⟩

/-- `.exp()` on a rank-1 tensor, via the abstract scalar operations. -/
def Tensor1.expAll (t : Tensor1 α) (S : ScalarOps α) : Tensor1 α :=
  ⟨t.len, fun i => S.exp (t.data i)⟩

/-- `.recip()` on a rank-1 tensor. -/
def Tensor1.recip [Inv α] (t : Tensor1 α) : Tensor1 α :=
  ⟨t.len, fun i => (t.data i)⁻¹⟩

/-- `.unsqueeze_dim(1)` on a rank-1 tensor: a `[len, 1]` column. -/
def Tensor1.unsqueeze1 (t : Tensor1 α) : Tensor2 α :=
  ⟨t.len, 1, fun i _ => t.data i⟩

/-- `.unsqueeze_dim(0)` on a rank-1 tensor: a `[1, len]` row. -/
def Tensor1.unsqueeze0 (t : Tensor1 α) : Tensor2 α :=
  ⟨1, t.len, fun _ j => t.data j⟩

/-- Rank-2 matrix multiplication (`matmul` of `[r, c]` by `[c, c2]`). -/
def Tensor2.matmul2 [Field α] (x y : Tensor2 α) : Tensor2 α :=
  ⟨x.rows, y.cols, fun i j => ∑ r ∈ Finset.range x.cols, x.data i r * y.data r j⟩

/-- `.cos()` on a rank-2 tensor, via the abstract scalar operations. -/
def Tensor2.cosAll (t : Tensor2 α) (S : ScalarOps α) : Tensor2 α :=
  ⟨t.rows, t.cols, fun i j => S.cos (t.data i j)⟩

/-- `.sin()` on a rank-2 tensor, via the abstract scalar operations. -/
def Tensor2.sinAll (t : Tensor2 α) (S : ScalarOps α) : Tensor2 α :=
  ⟨t.rows, t.cols, fun i j => S.sin (t.data i j)⟩

/-- `.select(0, positions)` on a rank-2 tensor: gather rows at the given
positions.  Positions are modelled as naturals (the source uses a
non-negative `Int` index tensor). -/
def Tensor2.select0 (t : Tensor2 α) (positions : Tensor1 Nat) : Tensor2 α :=
  ⟨positions.len, t.cols, fun i j => t.data (positions.data i) j⟩

/-- `.unsqueeze_dim(0).unsqueeze_dim(0)` on a rank-2 tensor: shape
`[1, 1, rows, cols]`. -/
def Tensor2.unsqueeze4 (t : Tensor2 α) : Tensor4 α :=
  ⟨1, 1, t.rows, t.cols, fun _ _ s d => t.data s d⟩

/-- Broadcast index rule of Burn's elementwise binary operations: an axis
of size 1 broadcasts (index 0); otherwise the index is used as is. -/
def bIdx (size idx : Nat) : Nat :=
  if size = 1 then 0 else idx

/-- A broadcast axis access with an in-range index is the index itself
(a size-1 axis forces the index to 0). -/
theorem bIdx_of_lt {n i : Nat} (h : i < n) : bIdx n i = i := by
  unfold bIdx
  split
  · omega
  · rfl

/-- Elementwise `.mul` with the right operand broadcast, shapes taken from
the left operand (all uses in the source are broadcast-compatible). -/
def Tensor4.mulB [Mul α] (x y : Tensor4 α) : Tensor4 α :=
  ⟨x.batch, x.heads, x.seq, x.dim, fun b h s d =>
    x.data b h s d * y.data (bIdx y.batch b) (bIdx y.heads h) (bIdx y.seq s) (bIdx y.dim d)⟩

/-- Elementwise `.sub` with the right operand broadcast. -/
def Tensor4.subB [Sub α] (x y : Tensor4 α) : Tensor4 α :=
  ⟨x.batch, x.heads, x.seq, x.dim, fun b h s d =>
    x.data b h s d - y.data (bIdx y.batch b) (bIdx y.heads h) (bIdx y.seq s) (bIdx y.dim d)⟩

/-- Elementwise `.add` with the right operand broadcast. -/
def Tensor4.addB [Add α] (x y : Tensor4 α) : Tensor4 α :=
  ⟨x.batch, x.heads, x.seq, x.dim, fun b h s d =>
    x.data b h s d + y.data (bIdx y.batch b) (bIdx y.heads h) (bIdx y.seq s) (bIdx y.dim d)⟩

/-- `.slice([0..batch, 0..heads, 0..seq, lo..hi])`: restrict the last axis
to the half-open range `[lo, hi)`. -/
def Tensor4.sliceLast (x : Tensor4 α) (lo hi : Nat) : Tensor4 α :=
  ⟨x.batch, x.heads, x.seq, hi - lo, fun b h s d => x.data b h s (lo + d)⟩

/-- `RotaryPositionalEmbeddingConfig` of `rope.rs`. -/
structure RotaryPositionalEmbeddingConfig (α : Type) where
  dim : Nat
  base_theta : α
  max_seq_len : Nat

/-- `RotaryPositionalEmbedding` of `rope.rs`: the configuration plus the
cos/sin tables, both of shape `[max_seq_len, dim / 2]`, computed once at
construction; the structure is immutable — no operation of the embedding
rewrites these fields. -/
structure RotaryPositionalEmbedding (α : Type) where
  config : RotaryPositionalEmbeddingConfig α
  cos_cached : Tensor2 α
  sin_cached : Tensor2 α

/-- `RotaryPositionalEmbedding::new(config, device)`: rejects an odd
`dim`; otherwise computes `inv_freq = (exp((2k / dim) * ln base_theta))⁻¹`
(the source's log-exp trick for `base_theta ^ (2k / dim)` followed by
`recip`), the outer product `freqs[p, k] = p * inv_freq[k]` via
`t.unsqueeze_dim(1).matmul(inv_freq.unsqueeze_dim(0))`, and caches the
elementwise cosine and sine of `freqs`. -/
def RotaryPositionalEmbedding.new [Field α] (S : ScalarOps α)
    (config : RotaryPositionalEmbeddingConfig α) :
    Except BurnCoreError (RotaryPositionalEmbedding α) :=
  if config.dim % 2 ≠ 0 then
    .error (.invalidConfig ("the RoPE dimension must be even"))
  else
    let inv_freq : Tensor1 α :=
      (((((arange_step config.dim 2).float).div_scalar (config.dim : α)).mul_scalar
        (S.log config.base_theta)).expAll S).recip
    let t : Tensor1 α := (arange config.max_seq_len).float
    let freqs : Tensor2 α := (t.unsqueeze1).matmul2 (inv_freq.unsqueeze0)
    .ok { config := config, cos_cached := freqs.cosAll S, sin_cached := freqs.sinAll S }

/-- The infallible core of `apply_rotary_emb_to_tensor` (`rope.rs` lines
146-171): split the last axis at `dim / 2` into `x1, x2` and concatenate
`[x1*cos - x2*sin, x1*sin + x2*cos]` back along the last axis. -/
def rotHalf [Field α] (dim : Nat) (x cos_val sin_val : Tensor4 α) : Tensor4 α :=
  let dim_half := dim / 2
  let x1 := x.sliceLast 0 dim_half
  let x2 := x.sliceLast dim_half dim
  ((x1.mulB cos_val).subB (x2.mulB sin_val)).catLast
    ((x1.mulB sin_val).addB (x2.mulB cos_val))

/-- `RotaryPositionalEmbedding::apply_rotary_emb_to_tensor(x, cos, sin)`,
with the final fallible `Tensor::cat` mapped into
`BurnCoreError::BurnTensor` exactly as in the source. -/
def RotaryPositionalEmbedding.apply_rotary_emb_to_tensor [Field α]
    (self : RotaryPositionalEmbedding α) (x cos_val sin_val : Tensor4 α) :
    Except BurnCoreError (Tensor4 α) :=
  let dim_half := self.config.dim / 2
  let x1 := x.sliceLast 0 dim_half
  let x2 := x.sliceLast dim_half self.config.dim
  let rotated_x1 := (x1.mulB cos_val).subB (x2.mulB sin_val)
  let rotated_x2 := (x1.mulB sin_val).addB (x2.mulB cos_val)
  match rotated_x1.catLastE rotated_x2 with
  | .ok r => .ok r
  | .error e => .error (.burnTensor e)

/-- `RotaryPositionalEmbedding::forward(q_states, k_states, positions)`:
gather the cached cos/sin rows at `positions`, unsqueeze them to
`[1, 1, seq, dim/2]`, and rotate query and key independently. -/
def RotaryPositionalEmbedding.forward [Field α]
    (self : RotaryPositionalEmbedding α) (q_states k_states : Tensor4 α)
    (positions : Tensor1 Nat) :
    Except BurnCoreError (Tensor4 α × Tensor4 α) :=
  let cos := (self.cos_cached.select0 positions).unsqueeze4
  let sin := (self.sin_cached.select0 positions).unsqueeze4
  match self.apply_rotary_emb_to_tensor q_states cos sin with
  | .error e => .error e
  | .ok q_embed =>
    match self.apply_rotary_emb_to_tensor k_states cos sin with
    | .error e => .error e
    | .ok k_embed => .ok (q_embed, k_embed)

/-- The two concatenated halves always agree on batch/heads/seq, so the
fallible concatenation inside `apply_rotary_emb_to_tensor` always
succeeds and the call computes `rotHalf`. -/
theorem apply_rotary_emb_to_tensor_ok [Field α]
    (self : RotaryPositionalEmbedding α) (x cos_val sin_val : Tensor4 α) :
    self.apply_rotary_emb_to_tensor x cos_val sin_val
      = .ok (rotHalf self.config.dim x cos_val sin_val) := by
  simp [RotaryPositionalEmbedding.apply_rotary_emb_to_tensor, rotHalf,
    Tensor4.catLastE, Tensor4.mulB, Tensor4.subB, Tensor4.addB, Tensor4.sliceLast]

/-- `forward` always succeeds and rotates query and key with the same
table rows. -/
theorem rope_forward_eq [Field α] (self : RotaryPositionalEmbedding α)
    (q_states k_states : Tensor4 α) (positions : Tensor1 Nat) :
    self.forward q_states k_states positions
      = .ok (rotHalf self.config.dim q_states
               ((self.cos_cached.select0 positions).unsqueeze4)
               ((self.sin_cached.select0 positions).unsqueeze4),
             rotHalf self.config.dim k_states
               ((self.cos_cached.select0 positions).unsqueeze4)
               ((self.sin_cached.select0 positions).unsqueeze4)) := by
  simp [RotaryPositionalEmbedding.forward, apply_rotary_emb_to_tensor_ok]

/-- Entry of the rotated tensor in the lower half of the last axis:
`x1 * cos - x2 * sin`. -/
theorem rotHalf_data_lo [Field α] (dim : Nat) (x cv sv : Tensor4 α) (b h s d : Nat)
    (hb : b < x.batch) (hh : h < x.heads) (hs : s < x.seq) (hd : d < dim / 2)
    (hcb : cv.batch = 1) (hch : cv.heads = 1) (hcs : s < cv.seq) (hcd : d < cv.dim)
    (hsb : sv.batch = 1) (hsh : sv.heads = 1) (hss : s < sv.seq) (hsd : d < sv.dim) :
    (rotHalf dim x cv sv).data b h s d
      = x.data b h s d * cv.data 0 0 s d
        - x.data b h s (dim / 2 + d) * sv.data 0 0 s d := by
  simp only [rotHalf, Tensor4.catLast, Tensor4.subB, Tensor4.addB, Tensor4.mulB,
    Tensor4.sliceLast, Nat.sub_zero]
  rw [if_pos (by omega)]
  rw [bIdx_of_lt hb, bIdx_of_lt hh, bIdx_of_lt hs]
  rw [bIdx_of_lt (show d < dim - dim / 2 by omega)]
  rw [hcb, hch, hsb, hsh]
  rw [bIdx_of_lt hcs, bIdx_of_lt hcd, bIdx_of_lt hss, bIdx_of_lt hsd]
  simp [bIdx]

/-- Entry of the rotated tensor in the upper half of the last axis:
`x1 * sin + x2 * cos`, read at offset `d - dim / 2`. -/
theorem rotHalf_data_hi [Field α] (dim : Nat) (x cv sv : Tensor4 α) (b h s d : Nat)
    (heven : dim % 2 = 0)
    (hb : b < x.batch) (hh : h < x.heads) (hs : s < x.seq)
    (hd1 : dim / 2 ≤ d) (hd2 : d < dim)
    (hcb : cv.batch = 1) (hch : cv.heads = 1) (hcs : s < cv.seq)
    (hcd : d - dim / 2 < cv.dim)
    (hsb : sv.batch = 1) (hsh : sv.heads = 1) (hss : s < sv.seq)
    (hsd : d - dim / 2 < sv.dim) :
    (rotHalf dim x cv sv).data b h s d
      = x.data b h s (d - dim / 2) * sv.data 0 0 s (d - dim / 2)
        + x.data b h s d * cv.data 0 0 s (d - dim / 2) := by
  simp only [rotHalf, Tensor4.catLast, Tensor4.subB, Tensor4.addB, Tensor4.mulB,
    Tensor4.sliceLast, Nat.sub_zero]
  rw [if_neg (by omega)]
  rw [bIdx_of_lt hb, bIdx_of_lt hh, bIdx_of_lt hs]
  rw [bIdx_of_lt (show d - dim / 2 < dim - dim / 2 by omega)]
  rw [hcb, hch, hsb, hsh]
  rw [bIdx_of_lt hcs, bIdx_of_lt hcd, bIdx_of_lt hss, bIdx_of_lt hsd]
  rw [show dim / 2 + (d - dim / 2) = d by omega]
  simp [bIdx]

/-- C6: `RotaryPositionalEmbedding::forward` gathers the cos/sin table
rows at the given positions, splits the last axis of each input into two
equal halves `x1, x2`, and returns `[x1*cos - x2*sin, x1*sin + x2*cos]`;
the very same rotation is applied independently to `q` and `k` (their
head counts may differ), and shapes are preserved. -/
theorem claim_C6_rope_forward [Field α] (self : RotaryPositionalEmbedding α)
    (q_states k_states : Tensor4 α) (positions : Tensor1 Nat) (b h s d : Nat)
    (heven : self.config.dim % 2 = 0)
    (hq : q_states.dim = self.config.dim) (hk : k_states.dim = self.config.dim)
    (hqs : q_states.seq = positions.len) (hks : k_states.seq = positions.len)
    (hcr : self.cos_cached.cols = self.config.dim / 2)
    (hsr : self.sin_cached.cols = self.config.dim / 2)
    (hs : s < positions.len)
    (hbq : b < q_states.batch) (hhq : h < q_states.heads)
    (hbk : b < k_states.batch) (hhk : h < k_states.heads) :
    ((self.forward q_states k_states positions).map (fun qk => qk.1.dims)
        = .ok q_states.dims)
    ∧ ((self.forward q_states k_states positions).map (fun qk => qk.2.dims)
        = .ok k_states.dims)
    ∧ (d < self.config.dim / 2 →
        ((self.forward q_states k_states positions).map (fun qk => qk.1.data b h s d)
          = .ok (q_states.data b h s d * self.cos_cached.data (positions.data s) d
              - q_states.data b h s (self.config.dim / 2 + d)
                  * self.sin_cached.data (positions.data s) d))
        ∧ ((self.forward q_states k_states positions).map (fun qk => qk.2.data b h s d)
          = .ok (k_states.data b h s d * self.cos_cached.data (positions.data s) d
              - k_states.data b h s (self.config.dim / 2 + d)
                  * self.sin_cached.data (positions.data s) d)))
    ∧ (self.config.dim / 2 ≤ d → d < self.config.dim →
        ((self.forward q_states k_states positions).map (fun qk => qk.1.data b h s d)
          = .ok (q_states.data b h s (d - self.config.dim / 2)
                  * self.sin_cached.data (positions.data s) (d - self.config.dim / 2)
              + q_states.data b h s d
                  * self.cos_cached.data (positions.data s) (d - self.config.dim / 2)))
        ∧ ((self.forward q_states k_states positions).map (fun qk => qk.2.data b h s d)
          = .ok (k_states.data b h s (d - self.config.dim / 2)
                  * self.sin_cached.data (positions.data s) (d - self.config.dim / 2)
              + k_states.data b h s d
                  * self.cos_cached.data (positions.data s) (d - self.config.dim / 2)))) := by
  rw [rope_forward_eq]
  refine ⟨?_, ?_, fun hd => ⟨?_, ?_⟩, fun hd1 hd2 => ⟨?_, ?_⟩⟩
  · simp only [Except.map, Tensor4.dims]
    simp [rotHalf, Tensor4.catLast, Tensor4.subB, Tensor4.addB, Tensor4.mulB,
      Tensor4.sliceLast]
    omega
  · simp only [Except.map, Tensor4.dims]
    simp [rotHalf, Tensor4.catLast, Tensor4.subB, Tensor4.addB, Tensor4.mulB,
      Tensor4.sliceLast]
    omega
  · simp only [Except.map]
    rw [rotHalf_data_lo self.config.dim q_states _ _ b h s d hbq hhq (hqs ▸ hs) hd
      rfl rfl hs (by rw [show ((self.cos_cached.select0 positions).unsqueeze4).dim
        = self.cos_cached.cols from rfl, hcr]; omega)
      rfl rfl hs (by rw [show ((self.sin_cached.select0 positions).unsqueeze4).dim
        = self.sin_cached.cols from rfl, hsr]; omega)]
    rfl
  · simp only [Except.map]
    rw [rotHalf_data_lo self.config.dim k_states _ _ b h s d hbk hhk (hks ▸ hs) hd
      rfl rfl hs (by rw [show ((self.cos_cached.select0 positions).unsqueeze4).dim
        = self.cos_cached.cols from rfl, hcr]; omega)
      rfl rfl hs (by rw [show ((self.sin_cached.select0 positions).unsqueeze4).dim
        = self.sin_cached.cols from rfl, hsr]; omega)]
    rfl
  · simp only [Except.map]
    rw [rotHalf_data_hi self.config.dim q_states _ _ b h s d heven hbq hhq (hqs ▸ hs)
      hd1 hd2 rfl rfl hs (by rw [show ((self.cos_cached.select0 positions).unsqueeze4).dim
        = self.cos_cached.cols from rfl, hcr]; omega)
      rfl rfl hs (by rw [show ((self.sin_cached.select0 positions).unsqueeze4).dim
        = self.sin_cached.cols from rfl, hsr]; omega)]
    rfl
  · simp only [Except.map]
    rw [rotHalf_data_hi self.config.dim k_states _ _ b h s d heven hbk hhk (hks ▸ hs)
      hd1 hd2 rfl rfl hs (by rw [show ((self.cos_cached.select0 positions).unsqueeze4).dim
        = self.cos_cached.cols from rfl, hcr]; omega)
      rfl rfl hs (by rw [show ((self.sin_cached.select0 positions).unsqueeze4).dim
        = self.sin_cached.cols from rfl, hsr]; omega)]
    rfl

/-- A concrete rational RoPE module (identity-like tables) used to
exercise the rotation on concrete inputs. -/
def ropeEx : RotaryPositionalEmbedding ℚ :=
  ⟨⟨2, 1, 4⟩, ⟨4, 1, fun _ _ => 1⟩, ⟨4, 1, fun _ _ => 0⟩⟩

/-- A concrete rational query/key tensor of shape `[1, 1, 1, 2]`. -/
def qEx : Tensor4 ℚ :=
  ⟨1, 1, 1, 2, fun _ _ _ d => (d : ℚ)⟩

/-- A concrete single-position index tensor. -/
def posEx : Tensor1 Nat :=
  ⟨1, fun _ => 0⟩

/-- C6 witness: the rotation theorem applied to a concrete rational RoPE
module and concrete query/key tensors. -/
theorem claim_C6_witness :
    ((2 : Nat) % 2 = 0 ∧ qEx.dim = ropeEx.config.dim ∧ (0 : Nat) < posEx.len
      ∧ (0 : Nat) < qEx.batch)
    ∧ ((ropeEx.forward qEx qEx posEx).map (fun qk => qk.1.dims) = .ok qEx.dims) :=
  ⟨⟨rfl, rfl, by decide, by decide⟩,
    (claim_C6_rope_forward ropeEx qEx qEx posEx 0 0 0 0 rfl rfl rfl rfl rfl rfl rfl
      (by decide) (by decide) (by decide) (by decide) (by decide)).1⟩

/-- The real-number instantiation of the scalar operations. -/
noncomputable def realOps : ScalarOps ℝ :=
  ⟨Real.cos, Real.sin, Real.exp, Real.log, Real.sqrt⟩

/-- C5: for an even dimension and positive base, construction succeeds and
the cached tables have shape `[max_seq_len, dim / 2]` with entries
`cos[p, k] = cos(p * f_k)` and `sin[p, k] = sin(p * f_k)` where
`f_k = base_theta ^ (-2k / dim)`; the inverse frequency is computed in the
source through `exp((2k / dim) * ln base_theta)` followed by `recip`
(the log-exp identity), which this theorem proves equal to the fractional
power. -/
theorem claim_C5_rope_tables (config : RotaryPositionalEmbeddingConfig ℝ) (p j : Nat)
    (heven : config.dim % 2 = 0) (hθ : 0 < config.base_theta) :
    ((RotaryPositionalEmbedding.new realOps config).map (fun r => r.cos_cached.rows)
        = .ok config.max_seq_len)
    ∧ ((RotaryPositionalEmbedding.new realOps config).map (fun r => r.cos_cached.cols)
        = .ok (config.dim / 2))
    ∧ ((RotaryPositionalEmbedding.new realOps config).map (fun r => r.sin_cached.rows)
        = .ok config.max_seq_len)
    ∧ ((RotaryPositionalEmbedding.new realOps config).map (fun r => r.sin_cached.cols)
        = .ok (config.dim / 2))
    ∧ ((RotaryPositionalEmbedding.new realOps config).map (fun r => r.cos_cached.data p j)
        = .ok (Real.cos ((p : ℝ)
            * config.base_theta ^ (-(2 * (j : ℝ)) / (config.dim : ℝ)))))
    ∧ ((RotaryPositionalEmbedding.new realOps config).map (fun r => r.sin_cached.data p j)
        = .ok (Real.sin ((p : ℝ)
            * config.base_theta ^ (-(2 * (j : ℝ)) / (config.dim : ℝ))))) := by
  have key : (Real.exp ((((2 * j : Nat) : ℝ)) / (config.dim : ℝ)
        * Real.log config.base_theta))⁻¹
      = config.base_theta ^ (-(2 * (j : ℝ)) / (config.dim : ℝ)) := by
    rw [Real.rpow_def_of_pos hθ, ← Real.exp_neg]
    congr 1
    push_cast
    ring
  simp only [RotaryPositionalEmbedding.new]
  rw [if_neg (by omega)]
  simp only [Except.map, Tensor2.cosAll, Tensor2.sinAll, Tensor2.matmul2,
    Tensor1.unsqueeze1, Tensor1.unsqueeze0, Tensor1.recip, Tensor1.expAll,
    Tensor1.mul_scalar, Tensor1.div_scalar, Tensor1.float, arange, arange_step,
    Finset.sum_range_one, realOps]
  refine ⟨trivial, by norm_num; omega, trivial, by norm_num; omega, ?_, ?_⟩
  · rw [key]
  · rw [key]

/-- C5 witness: the table theorem at the concrete configuration
`dim = 2, base_theta = 2, max_seq_len = 3` and entry `p = 1, j = 0`. -/
theorem claim_C5_witness :
    ((2 : Nat) % 2 = 0 ∧ (0 : ℝ) < 2)
    ∧ ((RotaryPositionalEmbedding.new realOps ⟨2, 2, 3⟩).map (fun r => r.cos_cached.data 1 0)
        = .ok (Real.cos (((1 : Nat) : ℝ)
            * (⟨2, 2, 3⟩ : RotaryPositionalEmbeddingConfig ℝ).base_theta
              ^ (-(2 * ((0 : Nat) : ℝ))
                / (((⟨2, 2, 3⟩ : RotaryPositionalEmbeddingConfig ℝ).dim : Nat) : ℝ))))) :=
  ⟨⟨rfl, by norm_num⟩,
    (claim_C5_rope_tables ⟨2, 2, 3⟩ 1 0 rfl (by norm_num)).2.2.2.2.1⟩

/-- Outcome of a Rust call that can also panic (used for
`GemmaAttentionConfig::init`, whose `usize` division panics on a zero
divisor before the defensive ratio check runs). -/
inductive Outcome (ε α : Type) where
  | ok (a : α)
  | err (e : ε)
  | panicked (msg : String)

/-- Burn's `Linear` layer: weight `[d_input, d_output]` and optional bias. -/
structure Linear (α : Type) where
  d_input : Nat
  d_output : Nat
  weight : Nat → Nat → α
  bias : Nat → α
  use_bias : Bool

/-- `LinearConfig::new(d_input, d_output).with_bias(b).init(device)`.  The
source draws random initial weights from the device; weights are modelled
as zeros — no claim depends on the sampled values, and the forward-pass
theorems quantify over arbitrary `Linear` modules. -/
def LinearConfig.init [Zero α] (d_input d_output : Nat) (with_bias : Bool) : Linear α :=
  ⟨d_input, d_output, fun _ _ => 0, fun _ => 0, with_bias⟩

/-- `Linear::forward` on a rank-3 input: affine map along the last axis. -/
def Linear.forward [Field α] (self : Linear α) (x : Tensor3 α) : Tensor3 α :=
  ⟨x.batch, x.seq, self.d_output, fun b s j =>
    (∑ i ∈ Finset.range self.d_input, x.data b s i * self.weight i j)
      + (if self.use_bias then self.bias j else 0)⟩

/-- `GemmaAttentionConfig` of `attention.rs`. -/
structure GemmaAttentionConfig (α : Type) where
  hidden_size : Nat
  num_attention_heads : Nat
  num_key_value_heads : Nat
  head_dim : Nat
  rope_config : RotaryPositionalEmbeddingConfig α
  use_qk_norm : Bool
  attention_dropout_prob : α
  use_bias : Bool

/-- `GemmaAttention` of `attention.rs`.  `attn_dropout` keeps the dropout
probability; Burn's `Dropout::forward` is the identity outside autodiff
training mode, which is how it is modelled in `attnCore`. -/
structure GemmaAttention (α : Type) where
  q_proj : Linear α
  k_proj : Linear α
  v_proj : Linear α
  o_proj : Linear α
  rope : RotaryPositionalEmbedding α
  num_attention_heads : Nat
  num_key_value_heads : Nat
  head_dim : Nat
  num_kv_groups : Nat
  use_qk_norm : Bool
  attn_dropout : α

/-- `GemmaAttentionConfig::init(device)` (`attention.rs` lines 59-103):
the four projections and the RoPE module are built first (RoPE can fail
with `InvalidConfig` on an odd dimension); then
`num_attention_heads / num_key_value_heads` is computed — in Rust this
`usize` division panics when `num_key_value_heads = 0`, before the
divisibility check on the next line — and finally
`num_attention_heads % num_key_value_heads != 0` is rejected with
`InvalidConfig`. -/
def GemmaAttentionConfig.init [Field α] (S : ScalarOps α)
    (self : GemmaAttentionConfig α) : Outcome BurnCoreError (GemmaAttention α) :=
  let q_proj : Linear α := LinearConfig.init self.hidden_size
    (self.num_attention_heads * self.head_dim) self.use_bias
  let k_proj : Linear α := LinearConfig.init self.hidden_size
    (self.num_key_value_heads * self.head_dim) self.use_bias
  let v_proj : Linear α := LinearConfig.init self.hidden_size
    (self.num_key_value_heads * self.head_dim) self.use_bias
  let o_proj : Linear α := LinearConfig.init
    (self.num_attention_heads * self.head_dim) self.hidden_size self.use_bias
  match RotaryPositionalEmbedding.new S self.rope_config with
  | .error e => .err e
  | .ok rope =>
    if self.num_key_value_heads = 0 then
      .panicked ("attempt to divide by zero")
    else
      let num_kv_groups := self.num_attention_heads / self.num_key_value_heads
      if self.num_attention_heads % self.num_key_value_heads ≠ 0 then
        .err (.invalidConfig
          ("num_attention_heads must be a multiple of num_key_value_heads"))
      else
        .ok ⟨q_proj, k_proj, v_proj, o_proj, rope, self.num_attention_heads,
          self.num_key_value_heads, self.head_dim, num_kv_groups, self.use_qk_norm,
          self.attention_dropout_prob⟩

/-- `.reshape([batch, seq, heads, head_dim]).swap_dims(1, 2)` in one step:
head `h` of the result reads features `h * head_dim + d`. -/
def Tensor3.toHeads (t : Tensor3 α) (heads head_dim : Nat) : Tensor4 α :=
  ⟨t.batch, heads, t.seq, head_dim, fun b h s d => t.data b s (h * head_dim + d)⟩

/-- `.swap_dims(1, 2).reshape([batch, seq, heads * head_dim])` in one
step: the inverse reshape at the end of the forward pass. -/
def Tensor4.mergeHeads (t : Tensor4 α) : Tensor3 α :=
  ⟨t.batch, t.seq, t.heads * t.dim, fun b s x => t.data b (x / t.dim) s (x % t.dim)⟩

/-- `.transpose(2, 3)` on a rank-4 tensor. -/
def Tensor4.transpose23 (t : Tensor4 α) : Tensor4 α :=
  ⟨t.batch, t.heads, t.dim, t.seq, fun b h i j => t.data b h j i⟩

/-- Batched `matmul` on rank-4 tensors (contraction over the last axis of
`x` and the third axis of `y`). -/
def Tensor4.matmul4 [Field α] (x y : Tensor4 α) : Tensor4 α :=
  ⟨x.batch, x.heads, x.seq, y.dim, fun b h i j =>
    ∑ r ∈ Finset.range x.dim, x.data b h i r * y.data b h r j⟩

/-- `.div_scalar(c)` on a rank-4 tensor. -/
def Tensor4.div_scalar [Div α] (t : Tensor4 α) (c : α) : Tensor4 α :=
  ⟨t.batch, t.heads, t.seq, t.dim, fun b h s d => t.data b h s d / c⟩

/-- `burn::tensor::activation::softmax(x, 3)`: exponentials normalised
along the last axis. -/
def softmaxDim3 [Field α] (S : ScalarOps α) (t : Tensor4 α) : Tensor4 α :=
  ⟨t.batch, t.heads, t.seq, t.dim, fun b h i j =>
    S.exp (t.data b h i j) / ∑ r ∈ Finset.range t.dim, S.exp (t.data b h i r)⟩

/-- `Tensor::repeat(1, times)`: `times` whole copies of the tensor
concatenated in sequence along the head axis (Burn tiles the existing
block; it does not interleave). -/
def Tensor4.repeat1 (t : Tensor4 α) : Nat → Tensor4 α
  | 0 => { t with heads := 0 }
  | n + 1 => (t.repeat1 n).catHeads t

/-- The grouped-query expansion step of `GemmaAttention::forward` (lines
210-214): repeat the key/value head axis `num_kv_groups` times when
`num_kv_groups > 1`, otherwise leave the tensor untouched. -/
def gqaExpand (num_kv_groups : Nat) (t : Tensor4 α) : Tensor4 α :=
  if num_kv_groups > 1 then t.repeat1 num_kv_groups else t

/-- Steps 5-12 of `GemmaAttention::forward` (lines 210-266), the part
after the cache interaction: grouped-head expansion, scaled scores (the
`use_qk_norm` branch and the default branch both divide by
`sqrt(head_dim)`), optional additive mask, softmax, dropout (identity at
inference), weighted sum with the values, head merge, output projection. -/
def attnCore [Field α] (S : ScalarOps α) (self : GemmaAttention α)
    (query_states key_states value_states : Tensor4 α)
    (attention_mask : Option (Tensor4 α)) : Tensor3 α :=
  let key_states := gqaExpand self.num_kv_groups key_states
  let value_states := gqaExpand self.num_kv_groups value_states
  let attention_scores := query_states.matmul4 key_states.transpose23
  let attention_scores :=
    if self.use_qk_norm then
      attention_scores.div_scalar (S.sqrt ((self.head_dim : Nat) : α))
    else
      attention_scores.div_scalar (S.sqrt ((self.head_dim : Nat) : α))
  let attention_scores :=
    match attention_mask with
    | some mask => attention_scores.addB mask
    | none => attention_scores
  let attention_weights := softmaxDim3 S attention_scores
  let attention_output := attention_weights.matmul4 value_states
  self.o_proj.forward attention_output.mergeHeads

/-- `GemmaAttention::forward(hidden_states, positions, attention_mask,
kv_cache)` (lines 164-269): project, reshape into heads, rotate query and
key with RoPE, then — when a cache is supplied — concatenate the cached
key/value with the new rotated key / projected value along the sequence
axis and use the full history both as the working key/value and as the
returned updated cache.  There is no capacity check anywhere on this
path: the cache parameter is Burn's plain `MhaCache`, and
`KVCache::update_and_get` is never called. -/
def GemmaAttention.forward [Field α] (S : ScalarOps α) (self : GemmaAttention α)
    (hidden_states : Tensor3 α) (positions : Tensor1 Nat)
    (attention_mask : Option (Tensor4 α)) (kv_cache : Option (MhaCache α)) :
    Except BurnCoreError (Tensor3 α × Option (MhaCache α)) :=
  let query_states0 := self.q_proj.forward hidden_states
  let key_states0 := self.k_proj.forward hidden_states
  let value_states0 := self.v_proj.forward hidden_states
  let query_states := query_states0.toHeads self.num_attention_heads self.head_dim
  let key_states := key_states0.toHeads self.num_key_value_heads self.head_dim
  let value_states := value_states0.toHeads self.num_key_value_heads self.head_dim
  match self.rope.forward query_states key_states positions with
  | .error e => .error e
  | .ok (q_rot, k_rot) =>
    match kv_cache with
    | some cache =>
      match cache.key.catSeqE k_rot with
      | .error e => .error (.burnTensor e)
      | .ok key_full =>
        match cache.value.catSeqE value_states with
        | .error e => .error (.burnTensor e)
        | .ok value_full =>
          .ok (attnCore S self q_rot key_full value_full attention_mask,
               some ⟨key_full, value_full⟩)
    | none =>
      .ok (attnCore S self q_rot k_rot value_states attention_mask,
           some ⟨k_rot, value_states⟩)

/-- `repeat(1, n)` multiplies the head count by `n`. -/
theorem repeat1_heads (t : Tensor4 α) : ∀ n, (t.repeat1 n).heads = n * t.heads := by
  intro n
  induction n with
  | zero => simp [Tensor4.repeat1]
  | succ n ih =>
      simp only [Tensor4.repeat1, Tensor4.catHeads, ih]
      ring

/-- Whole-block tiling: entry `h` of the repeated tensor reads source head
`h % heads` — query head `h` is served by kv head `h mod kv_heads`. -/
theorem repeat1_data (t : Tensor4 α) :
    ∀ n b h s d, h < n * t.heads →
      (t.repeat1 n).data b h s d = t.data b (h % t.heads) s d := by
  intro n
  induction n with
  | zero => intro b h s d hh; omega
  | succ n ih =>
      intro b h s d hh
      rw [Nat.succ_mul] at hh
      simp only [Tensor4.repeat1, Tensor4.catHeads, repeat1_heads]
      by_cases hcase : h < n * t.heads
      · rw [if_pos hcase]
        exact ih b h s d hcase
      · rw [if_neg hcase]
        have hlt : h - n * t.heads < t.heads := by omega
        have hmod : h % t.heads = h - n * t.heads := by
          conv_lhs => rw [show h = (h - n * t.heads) + n * t.heads by omega]
          rw [Nat.add_mul_mod_self_right, Nat.mod_eq_of_lt hlt]
        rw [hmod]

/-- The head count after the expansion step of the forward pass. -/
theorem gqaExpand_heads (g : Nat) (t : Tensor4 α) (hg : 1 ≤ g) :
    (gqaExpand g t).heads = g * t.heads := by
  unfold gqaExpand
  split
  · exact repeat1_heads t g
  · have : g = 1 := by omega
    subst this
    simp

/-- Entry of the expanded tensor: source head `h % heads`. -/
theorem gqaExpand_data (g : Nat) (t : Tensor4 α) (hg : 1 ≤ g) (b h s d : Nat)
    (hh : h < g * t.heads) :
    (gqaExpand g t).data b h s d = t.data b (h % t.heads) s d := by
  unfold gqaExpand
  split
  · exact repeat1_data t g b h s d hh
  · have hg1 : g = 1 := by omega
    subst hg1
    rw [Nat.mod_eq_of_lt (by omega)]

/-- C2: the key/value head expansion in `GemmaAttention::forward` is a
whole-block repeat — `num_kv_groups` copies of the `kv_heads`-sized head
axis tiled in sequence, so the expanded head count is
`num_kv_groups * kv_heads` (= `num_attention_heads` for a valid config),
head `i * kv_heads + j` of block `i` reads kv head `j`, head `h` reads
kv head `h mod kv_heads` (not the interleaved `h / num_kv_groups`), the
attention scores of query head `h` contract against kv head
`h mod kv_heads`, and with `num_kv_groups = 1` the expansion is a no-op. -/
theorem claim_C2_gqa_block_repeat [Field α] (g : Nat) (t q : Tensor4 α)
    (b h s d i j : Nat) (hg : 1 ≤ g) :
    ((gqaExpand g t).heads = g * t.heads)
    ∧ (h < g * t.heads →
        (gqaExpand g t).data b h s d = t.data b (h % t.heads) s d)
    ∧ (i < g → j < t.heads →
        (gqaExpand g t).data b (i * t.heads + j) s d = t.data b j s d)
    ∧ (gqaExpand 1 t = t)
    ∧ (h < g * t.heads →
        (q.matmul4 (gqaExpand g t).transpose23).data b h s d
          = ∑ r ∈ Finset.range q.dim, q.data b h s r * t.data b (h % t.heads) d r) := by
  refine ⟨gqaExpand_heads g t hg, fun hh => gqaExpand_data g t hg b h s d hh,
    fun hi hj => ?_, by simp [gqaExpand], fun hh => ?_⟩
  · have hlt : i * t.heads + j < g * t.heads := by
      calc i * t.heads + j < i * t.heads + t.heads := by omega
        _ = (i + 1) * t.heads := by ring
        _ ≤ g * t.heads := Nat.mul_le_mul_right _ (by omega)
    rw [gqaExpand_data g t hg b (i * t.heads + j) s d hlt]
    rw [show i * t.heads + j = j + i * t.heads by omega, Nat.add_mul_mod_self_right,
      Nat.mod_eq_of_lt hj]
  · simp only [Tensor4.matmul4, Tensor4.transpose23]
    exact Finset.sum_congr rfl fun r _ => by
      rw [gqaExpand_data g t hg b h d r hh]

/-- Rational stand-ins for the transcendental scalar operations, used
only to evaluate the embedding on concrete inputs (the structural claims
do not depend on the analytic behaviour of these functions). -/
def ratOps : ScalarOps ℚ :=
  ⟨fun x => x, fun x => x, fun x => x, fun x => x, fun x => x⟩

/-- A concrete two-head rational tensor whose entries record the head
index, so the tiling order is observable. -/
def tEx : Tensor4 ℚ :=
  ⟨1, 2, 1, 1, fun _ h _ _ => (h : ℚ)⟩

/-- A concrete four-head rational query tensor. -/
def qEx4 : Tensor4 ℚ :=
  ⟨1, 4, 1, 1, fun _ _ _ _ => 1⟩

/-- C2 witness: the block-repeat theorem applied to a concrete two-head
tensor expanded by two groups (head 3 reads kv head 3 mod 2 = 1, block
head 1*2+1 reads kv head 1, and one group is a no-op). -/
theorem claim_C2_witness :
    ((1 : Nat) ≤ 2 ∧ (3 : Nat) < 2 * tEx.heads ∧ (1 : Nat) < 2 ∧ (1 : Nat) < tEx.heads)
    ∧ ((gqaExpand 2 tEx).heads = 2 * tEx.heads
      ∧ (gqaExpand 2 tEx).data 0 3 0 0 = tEx.data 0 (3 % tEx.heads) 0 0
      ∧ (gqaExpand 2 tEx).data 0 (1 * tEx.heads + 1) 0 0 = tEx.data 0 1 0 0
      ∧ gqaExpand 1 tEx = tEx) :=
  ⟨⟨by decide, by decide, by decide, by decide⟩,
    (claim_C2_gqa_block_repeat 2 tEx qEx4 0 3 0 0 1 1 (by decide)).1,
    (claim_C2_gqa_block_repeat 2 tEx qEx4 0 3 0 0 1 1 (by decide)).2.1 (by decide),
    (claim_C2_gqa_block_repeat 2 tEx qEx4 0 3 0 0 1 1 (by decide)).2.2.1
      (by decide) (by decide),
    (claim_C2_gqa_block_repeat 2 tEx qEx4 0 3 0 0 1 1 (by decide)).2.2.2.1⟩

/-- C4: two attention modules that differ only in the `use_qk_norm` flag
produce identical `forward` results on every input — both branches of the
flag divide the raw scores by `sqrt(head_dim)` (`attention.rs` lines
222-238). -/
theorem claim_C4_qk_norm_equiv [Field α] (S : ScalarOps α) (att : GemmaAttention α)
    (b1 b2 : Bool) (hidden_states : Tensor3 α) (positions : Tensor1 Nat)
    (attention_mask : Option (Tensor4 α)) (kv_cache : Option (MhaCache α)) :
    GemmaAttention.forward S { att with use_qk_norm := b1 } hidden_states positions
        attention_mask kv_cache
      = GemmaAttention.forward S { att with use_qk_norm := b2 } hidden_states positions
        attention_mask kv_cache := by
  simp only [GemmaAttention.forward, attnCore, ite_self]

/-- Recognises an `InvalidConfig` error outcome. -/
def isInvalidConfigOutcome {β : Type} : Outcome BurnCoreError β → Prop
  | .err (.invalidConfig _) => True
  | _ => False

/-- Recognises a panic outcome. -/
def isPanickedOutcome {ε β : Type} : Outcome ε β → Prop
  | .panicked _ => True
  | _ => False

/-- Reads `num_kv_groups` out of a successful construction. -/
def okNumKvGroups {ε α : Type} : Outcome ε (GemmaAttention α) → Option Nat
  | .ok a => some a.num_kv_groups
  | _ => none

/-- C7 (amended): for every configuration with a nonzero
`num_key_value_heads`, construction with a non-divisible head ratio fails
with `InvalidConfig` (also when the RoPE dimension is odd, whose rejection
is likewise `InvalidConfig`), no panic occurs and no partial object is
produced; with a divisible ratio and an even RoPE dimension construction
succeeds and stores `num_kv_groups = num_attention_heads /
num_key_value_heads`. -/
theorem claim_C7_init_validation [Field α] (S : ScalarOps α)
    (cfg : GemmaAttentionConfig α) (hkv : cfg.num_key_value_heads ≠ 0) :
    (cfg.num_attention_heads % cfg.num_key_value_heads ≠ 0 →
      isInvalidConfigOutcome (cfg.init S))
    ∧ ¬ isPanickedOutcome (cfg.init S)
    ∧ (cfg.num_attention_heads % cfg.num_key_value_heads = 0 →
        cfg.rope_config.dim % 2 = 0 →
        okNumKvGroups (cfg.init S)
          = some (cfg.num_attention_heads / cfg.num_key_value_heads)) := by
  by_cases hdim : cfg.rope_config.dim % 2 ≠ 0
  · have hnew : RotaryPositionalEmbedding.new S cfg.rope_config
        = .error (.invalidConfig ("the RoPE dimension must be even")) := by
      rw [RotaryPositionalEmbedding.new, if_pos hdim]
    refine ⟨fun _ => ?_, ?_, fun _ hev => absurd hev hdim⟩
    · simp [GemmaAttentionConfig.init, hnew, isInvalidConfigOutcome]
    · simp [GemmaAttentionConfig.init, hnew, isPanickedOutcome]
  · have hnew : ∃ r, RotaryPositionalEmbedding.new S cfg.rope_config = .ok r := by
      rw [RotaryPositionalEmbedding.new, if_neg hdim]
      exact ⟨_, rfl⟩
    obtain ⟨r, hr⟩ := hnew
    refine ⟨fun hmod => ?_, ?_, fun hmod _ => ?_⟩
    · simp only [GemmaAttentionConfig.init, hr]
      rw [if_neg hkv, if_pos hmod]
      trivial
    · simp only [GemmaAttentionConfig.init, hr]
      rw [if_neg hkv]
      by_cases hm : cfg.num_attention_heads % cfg.num_key_value_heads ≠ 0
      · rw [if_pos hm]
        simp [isPanickedOutcome]
      · rw [if_neg hm]
        simp [isPanickedOutcome]
    · simp only [GemmaAttentionConfig.init, hr]
      rw [if_neg hkv, if_neg (by omega)]
      simp [okNumKvGroups]

/-- C7 counterexample to the claim as frozen: with
`num_key_value_heads = 0` (and a valid even RoPE dimension) the `usize`
division `num_attention_heads / num_key_value_heads` on line 82 of
`attention.rs` panics before the divisibility check runs, even though
`8 % 0 ≠ 0` (read over ℕ) — construction does not return `InvalidConfig`. -/
theorem claim_C7_counterexample :
    (8 % 0 ≠ 0)
    ∧ GemmaAttentionConfig.init ratOps
        (⟨1, 8, 0, 1, ⟨2, 1, 4⟩, false, 0, false⟩ : GemmaAttentionConfig ℚ)
      = .panicked ("attempt to divide by zero") :=
  ⟨by decide, rfl⟩

/-- C7 witness: the amended theorem applied to the spec's two example
configurations: 8 heads with 3 kv heads is rejected with `InvalidConfig`;
8 heads with 2 kv heads succeeds with `num_kv_groups = 4`. -/
theorem claim_C7_witness :
    ((3 : Nat) ≠ 0 ∧ 8 % 3 ≠ 0
      ∧ isInvalidConfigOutcome (GemmaAttentionConfig.init ratOps
          (⟨1, 8, 3, 1, ⟨2, 1, 4⟩, false, 0, false⟩ : GemmaAttentionConfig ℚ)))
    ∧ ((2 : Nat) ≠ 0 ∧ 8 % 2 = 0 ∧ 2 % 2 = 0
      ∧ okNumKvGroups (GemmaAttentionConfig.init ratOps
          (⟨1, 8, 2, 1, ⟨2, 1, 4⟩, false, 0, false⟩ : GemmaAttentionConfig ℚ))
        = some (8 / 2)) :=
  ⟨⟨by decide, by decide,
    (claim_C7_init_validation ratOps
      (⟨1, 8, 3, 1, ⟨2, 1, 4⟩, false, 0, false⟩ : GemmaAttentionConfig ℚ)
      (by decide)).1 (by decide)⟩,
   ⟨by decide, by decide, by decide,
    (claim_C7_init_validation ratOps
      (⟨1, 8, 2, 1, ⟨2, 1, 4⟩, false, 0, false⟩ : GemmaAttentionConfig ℚ)
      (by decide)).2.2 (by decide) (by decide)⟩⟩

/-- The projected query of `GemmaAttention::forward` (lines 174-182),
reshaped into heads. -/
def projQ [Field α] (att : GemmaAttention α) (hs : Tensor3 α) : Tensor4 α :=
  (att.q_proj.forward hs).toHeads att.num_attention_heads att.head_dim

/-- The projected key of `GemmaAttention::forward` (lines 175-185),
reshaped into heads. -/
def projK [Field α] (att : GemmaAttention α) (hs : Tensor3 α) : Tensor4 α :=
  (att.k_proj.forward hs).toHeads att.num_key_value_heads att.head_dim

/-- The projected value of `GemmaAttention::forward` (lines 176-188),
reshaped into heads (values are not rotated). -/
def projV [Field α] (att : GemmaAttention α) (hs : Tensor3 α) : Tensor4 α :=
  (att.v_proj.forward hs).toHeads att.num_key_value_heads att.head_dim

/-- The RoPE-rotated query of `GemmaAttention::forward` (line 192). -/
def rotatedQ [Field α] (att : GemmaAttention α) (hs : Tensor3 α)
    (positions : Tensor1 Nat) : Tensor4 α :=
  rotHalf att.rope.config.dim (projQ att hs)
    ((att.rope.cos_cached.select0 positions).unsqueeze4)
    ((att.rope.sin_cached.select0 positions).unsqueeze4)

/-- The RoPE-rotated key of `GemmaAttention::forward` (lines 192-193) —
the tensor that is appended to the cache, so cached keys already carry
positional information. -/
def rotatedK [Field α] (att : GemmaAttention α) (hs : Tensor3 α)
    (positions : Tensor1 Nat) : Tensor4 α :=
  rotHalf att.rope.config.dim (projK att hs)
    ((att.rope.cos_cached.select0 positions).unsqueeze4)
    ((att.rope.sin_cached.select0 positions).unsqueeze4)

/-- C1 (amended): when a cache is supplied and its tensors are
shape-compatible with the new rotated key / projected value, `forward`
concatenates the new (rotated) key and the new value onto the cache along
the sequence axis, uses the returned full history both as the working
key/value fed into the attention core and as the returned updated cache,
and the full key history has length `cache length + new length`.
No capacity bound is checked on this path: `forward` takes Burn's plain
`MhaCache` (which has no maximum length) and never calls
`KVCache::update_and_get`, so it never returns any `KVCache` error — in
particular never `PositionOutOfBounds` — no matter how long the supplied
history already is. -/
theorem claim_C1_forward_cache_append [Field α] (S : ScalarOps α)
    (att : GemmaAttention α) (hidden_states : Tensor3 α) (positions : Tensor1 Nat)
    (attention_mask : Option (Tensor4 α)) (cache : MhaCache α) :
    ((cache.key.batch = (rotatedK att hidden_states positions).batch
      ∧ cache.key.heads = (rotatedK att hidden_states positions).heads
      ∧ cache.key.dim = (rotatedK att hidden_states positions).dim
      ∧ cache.value.batch = (projV att hidden_states).batch
      ∧ cache.value.heads = (projV att hidden_states).heads
      ∧ cache.value.dim = (projV att hidden_states).dim) →
      (GemmaAttention.forward S att hidden_states positions attention_mask (some cache)
        = .ok (attnCore S att (rotatedQ att hidden_states positions)
                 (cache.key.catSeq (rotatedK att hidden_states positions))
                 (cache.value.catSeq (projV att hidden_states)) attention_mask,
               some ⟨cache.key.catSeq (rotatedK att hidden_states positions),
                     cache.value.catSeq (projV att hidden_states)⟩)
        ∧ (cache.key.catSeq (rotatedK att hidden_states positions)).seq
            = cache.key.seq + hidden_states.seq))
    ∧ (∀ e, GemmaAttention.forward S att hidden_states positions attention_mask (some cache)
          ≠ .error (.kvCache e)) := by
  have hrope : att.rope.forward
      ((att.q_proj.forward hidden_states).toHeads att.num_attention_heads att.head_dim)
      ((att.k_proj.forward hidden_states).toHeads att.num_key_value_heads att.head_dim)
      positions
      = .ok (rotatedQ att hidden_states positions, rotatedK att hidden_states positions) := by
    rw [rope_forward_eq]
    rfl
  refine ⟨fun hcompat => ?_, fun e => ?_⟩
  · obtain ⟨h1, h2, h3, h4, h5, h6⟩ := hcompat
    have hck : cache.key.catSeqE (rotatedK att hidden_states positions)
        = .ok (cache.key.catSeq (rotatedK att hidden_states positions)) := by
      simp [Tensor4.catSeqE, h1, h2, h3]
    have hcv : cache.value.catSeqE
          ((att.v_proj.forward hidden_states).toHeads att.num_key_value_heads att.head_dim)
        = .ok (cache.value.catSeq
          ((att.v_proj.forward hidden_states).toHeads att.num_key_value_heads
            att.head_dim)) := by
      simp only [projV] at h4 h5 h6
      simp [Tensor4.catSeqE, h4, h5, h6]
    constructor
    · simp only [GemmaAttention.forward, hrope, hck, hcv]
      rfl
    · rfl
  · simp only [GemmaAttention.forward, hrope]
    rcases hck2 : cache.key.catSeqE (rotatedK att hidden_states positions) with msg | kf
    · simp [hck2]
    · rcases hcv2 : cache.value.catSeqE
          ((att.v_proj.forward hidden_states).toHeads att.num_key_value_heads
            att.head_dim) with msg2 | vf
      · simp [hcv2]
      · simp [hcv2]

/-- A concrete rational hidden-state tensor `[1, 1, 1]`. -/
def hsEx : Tensor3 ℚ :=
  ⟨1, 1, 1, fun _ _ _ => 1⟩

/-- A concrete zero-weight rational linear layer. -/
def linEx (i o : Nat) : Linear ℚ :=
  ⟨i, o, fun _ _ => 0, fun _ => 0, false⟩

/-- A concrete rational attention module: one head, one kv head,
head_dim 2, RoPE dimension 2 with maximum table length 4. -/
def attEx : GemmaAttention ℚ :=
  ⟨linEx 1 2, linEx 1 2, linEx 1 2, linEx 2 1, ropeEx, 1, 1, 2, 1, false, 0⟩

/-- A concrete cache already holding a history of 3 positions. -/
def cacheEx : MhaCache ℚ :=
  ⟨zt4 1 1 3 2, zt4 1 1 3 2⟩

/-- C1 counterexample to the claim as frozen: `forward`'s cache parameter
is Burn's plain `MhaCache`, which carries no maximum length, and no
capacity check exists on the forward path.  With a history of 3 cached
positions (at or beyond any capacity bound of 3 or less, e.g. a `KVCache`
with `max_len = 3` whose tensors these are), the append succeeds and the
returned history grows to 4 — `forward` returns `ok`, not
`PositionOutOfBounds`. -/
theorem claim_C1_counterexample :
    cacheEx.key.seq = 3
    ∧ (GemmaAttention.forward ratOps attEx hsEx posEx none (some cacheEx)).map
        (fun out => out.2.map (fun c => c.key.seq)) = .ok (some 4) :=
  ⟨rfl, rfl⟩

/-- C1 witness: the amended theorem applied to the concrete module and
cache above. -/
theorem claim_C1_witness :
    (cacheEx.key.batch = (rotatedK attEx hsEx posEx).batch
      ∧ cacheEx.key.heads = (rotatedK attEx hsEx posEx).heads
      ∧ cacheEx.key.dim = (rotatedK attEx hsEx posEx).dim
      ∧ cacheEx.value.batch = (projV attEx hsEx).batch
      ∧ cacheEx.value.heads = (projV attEx hsEx).heads
      ∧ cacheEx.value.dim = (projV attEx hsEx).dim)
    ∧ (cacheEx.key.catSeq (rotatedK attEx hsEx posEx)).seq = cacheEx.key.seq + hsEx.seq
    ∧ GemmaAttention.forward ratOps attEx hsEx posEx none (some cacheEx)
        ≠ .error (.kvCache (.positionOutOfBounds 4 3)) :=
  ⟨⟨rfl, rfl, rfl, rfl, rfl, rfl⟩,
    ((claim_C1_forward_cache_append ratOps attEx hsEx posEx none cacheEx).1
      ⟨rfl, rfl, rfl, rfl, rfl, rfl⟩).2,
    (claim_C1_forward_cache_append ratOps attEx hsEx posEx none cacheEx).2
      (.positionOutOfBounds 4 3)⟩
